import Mathlib

/-!
Shallow embedding of pulp_rpm's Yum repomd metadata engine
(src/plugins/pulp_rpm/plugins/importers/yum/repomd/metadata.py) and
proofs about its descriptor parsing, acquisition, verification,
index-building and metadata-assembly behaviour.

Python-level conventions used throughout the embedding:
  * exceptions are modelled with an explicit `PyError` value in `Except`;
  * a dictionary key that may be absent is an `Option` field;
  * file contents are abstracted to the two observables the code reads
    (byte size, hex digest per algorithm);
  * `urljoin` and `os.path.join` are abstracted to string concatenation,
    since no proved property depends on URL/path resolution semantics.
-/

namespace PulpRpm

/-- The Python exceptions that metadata.py can raise, by kind and message/key. -/
inductive PyError where
  | keyError : String → PyError
  | valueError : String → PyError
  | runtimeError : String → PyError
  | ioError : String → PyError
  | attributeError : String → PyError
  | typeError : String → PyError
deriving DecidableEq

/-- The location child of a repomd data element; the href attribute may be absent. -/
structure LocationElem where
  href : Option String
deriving DecidableEq

/-- A checksum or open-checksum child: its type attribute may be absent, and its
text node may be empty/absent. -/
structure ChecksumElem where
  ctype : Option String
  text : Option String
deriving DecidableEq

/-- A size/timestamp/open-size child element, carrying only its text node
(None for an empty element), which the code feeds to int() or float(). -/
structure TextElem where
  text : Option String
deriving DecidableEq

/-- The whitespace characters Python strips around numeric literals. -/
def isPySpace (c : Char) : Bool :=
  c = ' ' ∨ c = '\t' ∨ c = '\n' ∨ c = '\r' ∨ c = '\x0b' ∨ c = '\x0c'

/-- Strip leading and trailing Python whitespace from a character list. -/
def stripPySpace (cs : List Char) : List Char :=
  ((cs.dropWhile isPySpace).reverse.dropWhile isPySpace).reverse

/-- An ASCII decimal digit. -/
def isDigitChar (c : Char) : Bool := 48 ≤ c.toNat ∧ c.toNat ≤ 57

/-- The value of a nonempty ASCII digit string. -/
def digitsVal (cs : List Char) : Nat :=
  cs.foldl (fun acc c => acc * 10 + (c.toNat - 48)) 0

/-- Python 2 int(string) literal acceptance and value: optional surrounding
whitespace, an optional sign, then one or more decimal digits (ASCII; exotic
unicode digit forms are not modelled).  none means int() raises ValueError. -/
def parseIntText (s : String) : Option Int :=
  match stripPySpace s.data with
  | '+' :: rest =>
    if rest ≠ [] ∧ rest.all isDigitChar then some (digitsVal rest : Int) else none
  | '-' :: rest =>
    if rest ≠ [] ∧ rest.all isDigitChar then some (-(digitsVal rest : Int)) else none
  | cs =>
    if cs ≠ [] ∧ cs.all isDigitChar then some (digitsVal cs : Int) else none

/-- int(text) on an element's text: a missing text node (int(None)) raises
TypeError; a non-integer literal raises ValueError. -/
def pyInt (t : Option String) : Except PyError Int :=
  match t with
  | none =>
    Except.error (PyError.typeError "int() argument must be a string or a number")
  | some s =>
    match parseIntText s with
    | some n => pure n
    | none => Except.error (PyError.valueError "invalid literal for int() with base 10")

/-- Lower-case an ASCII letter. -/
def asciiLower (c : Char) : Char :=
  if 65 ≤ c.toNat ∧ c.toNat ≤ 90 then Char.ofNat (c.toNat + 32) else c

/-- A float mantissa: digits, digits.digits, digits., or .digits —
at least one digit overall. -/
def mantissaOk (cs : List Char) : Bool :=
  let intPart := cs.takeWhile isDigitChar
  match cs.drop intPart.length with
  | [] => intPart ≠ []
  | '.' :: frac => (intPart ≠ [] ∨ frac ≠ []) ∧ frac.all isDigitChar
  | _ => false

/-- A float exponent part (after the e/E): optional sign, one or more digits. -/
def expOk (cs : List Char) : Bool :=
  match cs with
  | '+' :: rest => rest ≠ [] ∧ rest.all isDigitChar
  | '-' :: rest => rest ≠ [] ∧ rest.all isDigitChar
  | rest => rest ≠ [] ∧ rest.all isDigitChar

/-- Python 2 float(string) literal acceptance: optional whitespace and sign,
then inf/infinity/nan (any case) or mantissa with optional exponent. -/
def parseFloatAccept (s : String) : Bool :=
  let body :=
    match stripPySpace s.data with
    | '+' :: rest => rest
    | '-' :: rest => rest
    | cs => cs
  let lower := body.map asciiLower
  if lower = "inf".data ∨ lower = "infinity".data ∨ lower = "nan".data then true
  else
    let m := body.takeWhile (fun c => ¬(c = 'e' ∨ c = 'E'))
    mantissaOk m &&
      (match body.drop m.length with
        | [] => true
        | _ :: es => expOk es)

/-- A Python float value, abstracted by its accepted literal text: the
numeric value of the timestamp is never consumed by this module, only the
success or failure of float() matters. -/
structure PyFloat where
  literal : String
deriving DecidableEq

/-- float(text) on an element's text: a missing text node (float(None))
raises TypeError; an unacceptable literal raises ValueError. -/
def pyFloat (t : Option String) : Except PyError PyFloat :=
  match t with
  | none =>
    Except.error (PyError.typeError "float() argument must be a string or a number")
  | some s =>
    if parseFloatAccept s then pure { literal := s }
    else Except.error (PyError.valueError "could not convert string to float")

/-- One data element of repomd.xml as seen by process_repomd_data_element.
The type attribute and each child element may be absent; the size, timestamp
and open-size children carry their raw text, which the code parses with
int() or float(). -/
structure DataElement where
  typeAttr : Option String
  location : Option LocationElem
  checksum : Option ChecksumElem
  size : Option TextElem
  timestamp : Option TextElem
  openChecksum : Option ChecksumElem
  openSize : Option TextElem
deriving DecidableEq

/-- The checksum sub-dictionary of the FILE_INFO_SKEL skeleton. -/
structure ChecksumInfo where
  algorithm : Option String
  hex_digest : Option String
deriving DecidableEq

/-- The file-information dictionary produced per data element (FILE_INFO_SKEL
filled in).  The skeleton has no local_path key; download_metadata_files adds
it, so absence of the key is local_path = none. -/
structure FileInfo where
  name : String
  relative_path : Option String
  checksum : ChecksumInfo
  size : Option Int
  timestamp : Option PyFloat
  open_checksum : ChecksumInfo
  open_size : Option Int
  local_path : Option String
deriving DecidableEq

/-- The size / open-size handling of process_repomd_data_element: if the
child element is present, its text goes through int() (whose TypeError /
ValueError propagates), else the skeleton value stays None. -/
def readIntChild (e? : Option TextElem) : Except PyError (Option Int) :=
  match e? with
  | none => pure none
  | some e => do
      let n ← pyInt e.text
      pure (some n)

/-- The timestamp handling of process_repomd_data_element: if the child
element is present, its text goes through float() (whose TypeError /
ValueError propagates), else the skeleton value stays None. -/
def readFloatChild (e? : Option TextElem) : Except PyError (Option PyFloat) :=
  match e? with
  | none => pure none
  | some e => do
      let v ← pyFloat e.text
      pure (some v)

/-- process_repomd_data_element: reads attrib, raising KeyError on a missing
required attribute; a missing child element leaves the skeleton value None;
the size, timestamp and open-size texts are parsed with int()/float(),
whose failures propagate. -/
def process_repomd_data_element (d : DataElement) : Except PyError FileInfo := do
  let name ← match d.typeAttr with
    | none => Except.error (PyError.keyError "type")
    | some t => pure t
  let relative_path ← match d.location with
    | none => pure none
    | some loc => match loc.href with
      | none => Except.error (PyError.keyError "href")
      | some h => pure (some h)
  let checksum ← match d.checksum with
    | none => pure { algorithm := none, hex_digest := none : ChecksumInfo }
    | some c => match c.ctype with
      | none => Except.error (PyError.keyError "type")
      | some a => pure { algorithm := some a, hex_digest := c.text : ChecksumInfo }
  let size ← readIntChild d.size
  let timestamp ← readFloatChild d.timestamp
  let open_checksum ← match d.openChecksum with
    | none => pure { algorithm := none, hex_digest := none : ChecksumInfo }
    | some c => match c.ctype with
      | none => Except.error (PyError.keyError "type")
      | some a => pure { algorithm := some a, hex_digest := c.text : ChecksumInfo }
  let open_size ← readIntChild d.openSize
  pure { name := name
         relative_path := relative_path
         checksum := checksum
         size := size
         timestamp := timestamp
         open_checksum := open_checksum
         open_size := open_size
         local_path := none }

/-- A child element of the repomd root, as delivered by the iterparse loop:
a revision element (with optional text), a data element, or an element with
some other tag (skipped by the loop). -/
inductive RepomdItem where
  | revisionElem : Option String → RepomdItem
  | dataElem : DataElement → RepomdItem
  | otherElem : RepomdItem
deriving DecidableEq

/-- A repomd.xml document: either not well-formed (iterparse raises), or a
well-formed sequence of child elements under the root. -/
inductive RepomdDocument where
  | malformed : RepomdDocument
  | wellFormed : List RepomdItem → RepomdDocument
deriving DecidableEq

/-- Python dict assignment d[k] = v on an association list: replace the
binding in place if the key exists, otherwise append. -/
def dictInsert {α : Type} : List (String × α) → String → α → List (String × α)
  | [], k, v => [(k, v)]
  | (k₀, v₀) :: rest, k, v =>
    if k = k₀ then (k, v) :: rest else (k₀, v₀) :: dictInsert rest k v

/-- The state parse_repomd accumulates: self.revision and self.metadata. -/
structure ParseResult where
  revision : Option String
  metadata : List (String × FileInfo)
deriving DecidableEq

/-- One iteration of parse_repomd's end-event loop. -/
def parse_repomd_step (st : ParseResult) : RepomdItem → Except PyError ParseResult
  | RepomdItem.revisionElem t => pure { st with revision := t }
  | RepomdItem.dataElem d => do
      let fi ← process_repomd_data_element d
      pure { st with metadata := dictInsert st.metadata fi.name fi }
  | RepomdItem.otherElem => pure st

/-- parse_repomd: a malformed document raises ValueError; otherwise each end
event is processed in order, recording the revision text and one metadata
entry per data element keyed by its type attribute. -/
def parse_repomd (doc : RepomdDocument) : Except PyError ParseResult :=
  match doc with
  | RepomdDocument.malformed =>
      Except.error (PyError.valueError "could not parse repo metadata")
  | RepomdDocument.wellFormed items =>
      items.foldlM parse_repomd_step { revision := none, metadata := [] }

/-- Search for pat starting at successive positions of hay, returning the
first match index (offset by acc). -/
def findSubAux (pat : List Char) : List Char → Nat → Option Nat
  | [], i => if pat.isEmpty then some i else none
  | c :: t, i =>
    if pat.isPrefixOf (c :: t) then some i else findSubAux pat t (i + 1)

/-- Python str.find: index of the first occurrence of pat in s, or -1. -/
def pyFind (s pat : String) : Int :=
  match findSubAux pat.data s.data 0 with
  | some i => (i : Int)
  | none => -1

/-- Python s.rsplit(sep, 1)[-1] for sep = the slash character: the part of
the string after its last slash (the whole string when it has none). -/
def rsplitLast (s : String) : String :=
  String.mk ((s.data.reverse.takeWhile (fun c => c ≠ '/')).reverse)

/-- urljoin, abstracted to concatenation (no claim depends on URL resolution). -/
def urljoin (base rel : String) : String := base ++ rel

/-- os.path.join, abstracted to concatenation with a slash. -/
def pathJoin (dir leaf : String) : String := dir ++ "/" ++ leaf

/-- A nectar DownloadRequest: source URL and destination path. -/
structure DownloadRequest where
  url : String
  destination : String
deriving DecidableEq

/-- The injected fetcher (nectar downloader) abstracted to its observable
outcome: which requests succeed, and the error report text of a failure. -/
structure FetchOutcome where
  success : DownloadRequest → Bool
  errorReport : DownloadRequest → String

/-- The failed_reports the AggregatingEventListener holds after a batch:
the error reports of the failed requests, in request order. -/
def failed_reports (outcome : FetchOutcome) (requests : List DownloadRequest) :
    List String :=
  (requests.filter (fun r => !outcome.success r)).map outcome.errorReport

/-- The single request download_repomd issues for repodata/repomd.xml. -/
def repomdRequest (repo_url dst_dir : String) : DownloadRequest :=
  { url := urljoin repo_url "repodata/repomd.xml"
    destination := pathJoin dst_dir "repomd.xml" }

/-- download_repomd: one-request batch; raises IOError with the first failed
report if the event listener recorded any failure. -/
def download_repomd (repo_url dst_dir : String) (outcome : FetchOutcome) :
    Except PyError Unit :=
  match failed_reports outcome [repomdRequest repo_url dst_dir] with
  | [] => pure ()
  | e :: _ => Except.error (PyError.ioError e)

/-- The loop body of download_metadata_files over self.metadata.values():
skip entries whose relative path contains the substring sqlite, otherwise set
local_path to the destination and append a request.  Accessing
relative_path.find on a None path raises AttributeError, as in Python. -/
def buildDownloadList (repo_url dst_dir : String) :
    List FileInfo → Except PyError (List FileInfo × List DownloadRequest)
  | [] => pure ([], [])
  | md :: rest =>
    match md.relative_path with
    | none => Except.error (PyError.attributeError "find")
    | some rel =>
      if pyFind rel "sqlite" ≥ 0 then do
        let (ms, rs) ← buildDownloadList repo_url dst_dir rest
        pure (md :: ms, rs)
      else do
        let dst := pathJoin dst_dir (rsplitLast rel)
        let md' := { md with local_path := some dst }
        let (ms, rs) ← buildDownloadList repo_url dst_dir rest
        pure (md' :: ms, { url := urljoin repo_url rel, destination := dst } :: rs)

/-- download_metadata_files: raises RuntimeError when parse_repomd has not
populated self.metadata; otherwise builds the full request list, mutating
local_path as it goes, and hands the whole batch to the downloader in one
call.  The listener's failed reports are returned alongside the updated
metadata and the batch — the method never inspects them and raises nothing
on a failed transfer. -/
def download_metadata_files (repo_url dst_dir : String)
    (metadata : List FileInfo) (outcome : FetchOutcome) :
    Except PyError (List FileInfo × List DownloadRequest × List String) := do
  if metadata.isEmpty then
    Except.error (PyError.runtimeError "repomd.xml has not been parsed")
  else
    let (ms, rs) ← buildDownloadList repo_url dst_dir metadata
    pure (ms, rs, failed_reports outcome rs)

/-- The digest algorithms available as constructor attributes of Python 2.7's
hashlib module. -/
inductive HashAlgo where
  | md5 | sha1 | sha224 | sha256 | sha384 | sha512
deriving DecidableEq

/-- getattr(hashlib, name, None), restricted to the guaranteed digest
constructor attributes of Python 2.7 hashlib (md5, sha1, sha224, sha256,
sha384, sha512); other module attributes are not digest constructors and are
not modelled. -/
def hashlib_getattr (name : String) : Option HashAlgo :=
  if name = "md5" then some HashAlgo.md5
  else if name = "sha1" then some HashAlgo.sha1
  else if name = "sha224" then some HashAlgo.sha224
  else if name = "sha256" then some HashAlgo.sha256
  else if name = "sha384" then some HashAlgo.sha384
  else if name = "sha512" then some HashAlgo.sha512
  else none

/-- An acquired file on disk, abstracted to the two observables
verify_metadata_files reads: its byte size (os.path.getsize) and its hex
digest under each algorithm (hashlib update/hexdigest of the full content). -/
structure LocalFile where
  byteSize : Nat
  hexdigest : HashAlgo → String

/-- The loop body of verify_metadata_files for one metadata entry, given the
local filesystem as a map from path to file.  Follows the source order:
missing local_path, missing size, size mismatch under floor division by 1024,
missing checksum algorithm, unresolvable algorithm, digest mismatch.  Error
messages are the source format strings with the interpolated path/algorithm
dropped (message text is not at issue in any claim; the distinct constants
identify which failure occurred). -/
def verify_metadata_file (md : FileInfo) (fs : String → LocalFile) :
    Except PyError Unit := do
  let local_path ← match md.local_path with
    | some p => pure p
    | none => match md.relative_path with
      | none => Except.error (PyError.attributeError "rsplit")
      | some _ =>
        Except.error (PyError.runtimeError "has not been downloaded")
  let declared ← match md.size with
    | none =>
      Except.error (PyError.runtimeError "cannot be verified, no file size")
    | some s => pure s
  if ((fs local_path).byteSize : Int) / 1024 ≠ declared then
    Except.error (PyError.runtimeError "failed verification, file size mismatch")
  else
    let algorithm ← match md.checksum.algorithm with
      | none =>
        Except.error (PyError.runtimeError "cannot be verified, no checksum")
      | some a => pure a
    match hashlib_getattr algorithm with
    | none =>
      Except.error (PyError.runtimeError "failed verification, unsupported hash algorithm")
    | some h =>
      if some ((fs local_path).hexdigest h) ≠ md.checksum.hex_digest then
        Except.error (PyError.runtimeError "failed verification, checksum mismatch")
      else
        pure ()

/-- verify_metadata_files: runs the per-entry check over every metadata value,
stopping at the first exception. -/
def verify_metadata_files (metadata : List FileInfo) (fs : String → LocalFile) :
    Except PyError Unit :=
  metadata.foldlM (fun _ md => verify_metadata_file md fs) ()

/-- Lexicographic comparison of character lists by code point, an executable
model of Python 2's string comparison used by sorted() (identical on the
ASCII field names that occur in unit keys). -/
def lexLe : List Char → List Char → Bool
  | [], _ => true
  | _ :: _, [] => false
  | a :: as, b :: bs =>
    if a.toNat < b.toNat then true
    else if b.toNat < a.toNat then false
    else lexLe as bs

/-- String comparison as a proposition, for use as a sort relation. -/
def strLeP (a b : String) : Prop := lexLe a.data b.data = true

instance : DecidableRel strLeP := fun a b => instDecidableEqBool (lexLe a.data b.data) true

/-- generate_db_key: copy the unit key, pop checksum and checksumtype, sort
the remaining field names, and join name:value pairs with the :: delimiter.
A Python dict is modelled as an association list of its items; the value of
a field is recovered by lookup (dict indexing). -/
def generate_db_key (unit_key : List (String × String)) : String :=
  let uk := unit_key.filter (fun p => ¬(p.1 = "checksum" ∨ p.1 = "checksumtype"))
  let sorted_key_names := List.insertionSort strLeP (uk.map Prod.fst)
  String.intercalate "::"
    (sorted_key_names.map (fun n => n ++ ":" ++ ((uk.lookup n).getD "")))

/-- Python str.endswith, computed on character lists. -/
def strEndsWith (s suf : String) : Bool := suf.data.isSuffixOf s.data

/-- An open metadata file handle: gzip.open, lzma.LZMAFile or plain open,
chosen by the local path's extension, carrying the path it reads. -/
inductive FileHandle where
  | gz : String → FileHandle
  | xz : String → FileHandle
  | plain : String → FileHandle
deriving DecidableEq

/-- get_metadata_file_handle: a KeyError from either dictionary access
(unknown kind, or kind never acquired so no local_path key) is caught and
turns into None; otherwise the handle kind follows the file extension. -/
def get_metadata_file_handle (metadata : List (String × FileInfo))
    (name : String) : Option FileHandle :=
  match metadata.lookup name with
  | none => none
  | some fi =>
    match fi.local_path with
    | none => none
    | some p =>
      if strEndsWith p ".gz" then some (FileHandle.gz p)
      else if strEndsWith p ".xz" then some (FileHandle.xz p)
      else some (FileHandle.plain p)

/-- get_group_file_handle: try the compressed group_gz entry first, fall back
to the uncompressed group entry. -/
def get_group_file_handle (metadata : List (String × FileInfo)) :
    Option FileHandle :=
  match get_metadata_file_handle metadata "group_gz" with
  | none => get_metadata_file_handle metadata "group"
  | some h => some h

/-- One package record yielded by the streaming package_list_generator over a
detail file, abstracted to the two projections the indexing loop applies.
Modelled from the spec: packages.py's element_to_raw_xml (the record's
original raw serialized form, stored verbatim) and the detail kind's
process_package_element unit-key extraction live in repository modules not
under src/; the spec's Streaming Extractor yields each record as a raw
fragment together with its unit key. -/
structure PackageRecord where
  unit_key : List (String × String)
  raw_xml : String
deriving DecidableEq

/-- One write of the generate_dbs inner loop: store raw_xml under the
record's generate_db_key, overwriting any earlier value at that key. -/
def dbStep (store : String → Option String) (r : PackageRecord) :
    String → Option String :=
  fun k => if k = generate_db_key r.unit_key then some r.raw_xml else store k

/-- The inner loop of generate_dbs for one detail kind: open the store fresh
and truncated (gdbm flag nf, an empty initial store), then fold the writes
over the streamed records in file order. -/
def generate_db (records : List PackageRecord) : String → Option String :=
  records.foldl dbStep (fun _ => none)

/-- The metadata bag add_repodata assembles onto the model: the raw filelists
and other fragments and the primary raw_xml under model.metadata['repodata'],
plus the structured payloads under the 'files' and 'changelog' keys.  The
payload types are parameters because the payload parsers live outside the
embedded module. -/
structure RepodataBag (α β : Type) where
  repodata_filelists : String
  repodata_other : String
  repodata_primary : String
  files : α
  changelog : β

/-- add_repodata: computes the db key once, then for the filelists store and
the other store in turn reads store[db_key]; a missing key raises KeyError
(the gdbm read is guarded only by try/finally, which closes the handle and
re-raises).  On two hits the bag carries both raw fragments, their parsed
payloads, and the model's primary raw_xml.  The payload parsers
filelists.process_package_element / other.process_package_element are
abstracted as the functions pf and po (they live in modules not under src/). -/
def add_repodata {α β : Type} (dbs_filelists dbs_other : String → Option String)
    (pf : String → α) (po : String → β)
    (unit_key : List (String × String)) (raw_xml : String) :
    Except PyError (RepodataBag α β) :=
  let db_key := generate_db_key unit_key
  match dbs_filelists db_key with
  | none => Except.error (PyError.keyError db_key)
  | some fx =>
    match dbs_other db_key with
    | none => Except.error (PyError.keyError db_key)
    | some ox =>
      pure { repodata_filelists := fx
             repodata_other := ox
             repodata_primary := raw_xml
             files := pf fx
             changelog := po ox }

/-! Order-theoretic facts about the string comparison used by sorted(). -/

theorem char_toNat_inj {a b : Char} (h : a.toNat = b.toNat) : a = b :=
  Char.ext (UInt32.toNat.inj h)

theorem lexLe_total : ∀ as bs : List Char, lexLe as bs = true ∨ lexLe bs as = true
  | [], _ => Or.inl rfl
  | _ :: _, [] => Or.inr rfl
  | a :: as, b :: bs => by
    rcases Nat.lt_trichotomy a.toNat b.toNat with h | h | h
    · left; simp [lexLe, h]
    · have hab : a = b := char_toNat_inj h
      subst hab
      rcases lexLe_total as bs with ih | ih
      · left; simp [lexLe, ih]
      · right; simp [lexLe, ih]
    · right; simp [lexLe, h]

theorem lexLe_antisymm : ∀ as bs : List Char,
    lexLe as bs = true → lexLe bs as = true → as = bs
  | [], [], _, _ => rfl
  | [], _ :: _, _, h2 => by simp [lexLe] at h2
  | _ :: _, [], h1, _ => by simp [lexLe] at h1
  | a :: as, b :: bs, h1, h2 => by
    rcases Nat.lt_trichotomy a.toNat b.toNat with h | h | h
    · simp [lexLe, h, Nat.lt_asymm h] at h2
    · have hab : a = b := char_toNat_inj h
      subst hab
      simp only [lexLe, lt_self_iff_false, if_false] at h1 h2
      rw [lexLe_antisymm as bs h1 h2]
    · simp [lexLe, h, Nat.lt_asymm h] at h1

theorem lexLe_trans : ∀ as bs cs : List Char,
    lexLe as bs = true → lexLe bs cs = true → lexLe as cs = true
  | [], _, _, _, _ => rfl
  | _ :: _, [], _, h1, _ => by simp [lexLe] at h1
  | _ :: _, _ :: _, [], _, h2 => by simp [lexLe] at h2
  | a :: as, b :: bs, c :: cs, h1, h2 => by
    rcases Nat.lt_trichotomy a.toNat b.toNat with hab | hab | hab
    · rcases Nat.lt_trichotomy b.toNat c.toNat with hbc | hbc | hbc
      · simp [lexLe, Nat.lt_trans hab hbc]
      · simp [lexLe, hbc ▸ hab]
      · simp [lexLe, hbc, Nat.lt_asymm hbc] at h2
    · have h : a = b := char_toNat_inj hab
      subst h
      simp only [lexLe, lt_self_iff_false, if_false] at h1
      rcases Nat.lt_trichotomy a.toNat c.toNat with hac | hac | hac
      · simp [lexLe, hac]
      · have h : a = c := char_toNat_inj hac
        subst h
        simp only [lexLe, lt_self_iff_false, if_false] at h2 ⊢
        exact lexLe_trans as bs cs h1 h2
      · simp [lexLe, hac, Nat.lt_asymm hac] at h2
    · simp [lexLe, hab, Nat.lt_asymm hab] at h1

instance : IsTotal String strLeP :=
  ⟨fun a b => lexLe_total a.data b.data⟩

instance : IsTrans String strLeP :=
  ⟨fun a b c h1 h2 => lexLe_trans a.data b.data c.data h1 h2⟩

instance : IsAntisymm String strLeP :=
  ⟨fun a b h1 h2 => by
    cases a; cases b
    exact congrArg String.mk (lexLe_antisymm _ _ h1 h2)⟩

/-! Association-list facts supporting the dict-based definitions. -/

theorem lookup_cons_eq {β : Type} (a k : String) (v : β) (l : List (String × β)) :
    List.lookup a ((k, v) :: l) = if a = k then some v else List.lookup a l := by
  rw [List.lookup_cons]
  by_cases h : a = k
  · simp [h]
  · simp [h, beq_eq_false_iff_ne.mpr h]

/-- Looking a key up in an association list with pairwise-distinct keys is
invariant under permutation of the list. -/
theorem lookup_perm {β : Type} :
    ∀ {l₁ l₂ : List (String × β)}, l₁.Perm l₂ →
      (l₁.map Prod.fst).Nodup → ∀ a, List.lookup a l₁ = List.lookup a l₂ := by
  intro l₁ l₂ h
  induction h with
  | nil => intro _ _; rfl
  | cons x h ih =>
    intro nd a
    obtain ⟨k, v⟩ := x
    rw [lookup_cons_eq, lookup_cons_eq]
    by_cases hak : a = k
    · simp [hak]
    · simp only [if_neg hak]
      exact ih (by simpa using nd.of_cons) a
  | swap x y l =>
    intro nd a
    obtain ⟨k₁, v₁⟩ := x
    obtain ⟨k₂, v₂⟩ := y
    have hkk : k₂ ≠ k₁ := by
      simp only [List.map_cons, List.nodup_cons, List.mem_cons] at nd
      exact fun h => nd.1 (Or.inl h)
    rw [lookup_cons_eq, lookup_cons_eq, lookup_cons_eq, lookup_cons_eq]
    by_cases h1 : a = k₂ <;> by_cases h2 : a = k₁
    · exact absurd (h1.symm.trans h2) hkk
    · simp [h1, h2, hkk]
    · simp [h1, h2, Ne.symm hkk]
    · simp [h1, h2]
  | trans h₁ h₂ ih₁ ih₂ =>
    intro nd a
    rw [ih₁ nd a, ih₂ ((h₁.map Prod.fst).nodup nd) a]

/-! Characterizations of the download loop and the parse loop. -/

/-- The skip condition of the download loop: the relative path contains the
sqlite sidecar substring. -/
def sqliteSkip (md : FileInfo) : Bool :=
  decide (pyFind (md.relative_path.getD "") "sqlite" ≥ 0)

/-- The local_path mutation the download loop performs on one entry. -/
def mdWithLocal (dst_dir : String) (md : FileInfo) : FileInfo :=
  if sqliteSkip md then md
  else { md with local_path := some (pathJoin dst_dir (rsplitLast (md.relative_path.getD ""))) }

/-- The fetch request the download loop builds for one (non-skipped) entry. -/
def mdRequest (repo_url dst_dir : String) (md : FileInfo) : DownloadRequest :=
  { url := urljoin repo_url (md.relative_path.getD "")
    destination := pathJoin dst_dir (rsplitLast (md.relative_path.getD "")) }

theorem buildDownloadList_eq (repo_url dst_dir : String) :
    ∀ metadata : List FileInfo, (∀ md ∈ metadata, md.relative_path ≠ none) →
      buildDownloadList repo_url dst_dir metadata =
        Except.ok (metadata.map (mdWithLocal dst_dir),
          (metadata.filter (fun md => !sqliteSkip md)).map (mdRequest repo_url dst_dir)) := by
  intro metadata
  induction metadata with
  | nil => intro _; rfl
  | cons md rest ih =>
    intro h
    have hmd : md.relative_path ≠ none := h md (List.mem_cons_self md rest)
    have hrest := ih (fun m hm => h m (List.mem_cons_of_mem md hm))
    cases hrel : md.relative_path with
    | none => exact absurd hrel hmd
    | some rel =>
      by_cases hsq : pyFind rel "sqlite" ≥ 0
      · have hskip : sqliteSkip md = true := by
          simp [sqliteSkip, hrel, hsq]
        simp [buildDownloadList, hrel, hsq, hrest, hskip, mdWithLocal, List.filter_cons]
      · have hskip : sqliteSkip md = false := by
          simp [sqliteSkip, hrel, hsq]
        simp [buildDownloadList, hrel, hsq, hrest, hskip, mdWithLocal, mdRequest,
          List.filter_cons]

/-- download_metadata_files on a nonempty metadata dict whose entries all
carry relative paths: always a normal return, local_path mutation applied to
every non-sidecar entry, one request per non-sidecar entry, and whatever
failure reports the fetch produced are merely held by the listener. -/
theorem download_metadata_files_eq (repo_url dst_dir : String)
    (metadata : List FileInfo) (outcome : FetchOutcome)
    (h : ∀ md ∈ metadata, md.relative_path ≠ none) (hne : metadata ≠ []) :
    download_metadata_files repo_url dst_dir metadata outcome =
      Except.ok (metadata.map (mdWithLocal dst_dir),
        (metadata.filter (fun md => !sqliteSkip md)).map (mdRequest repo_url dst_dir),
        failed_reports outcome
          ((metadata.filter (fun md => !sqliteSkip md)).map (mdRequest repo_url dst_dir))) := by
  have hbuild := buildDownloadList_eq repo_url dst_dir metadata h
  have hempty : metadata.isEmpty = false := by
    cases metadata with
    | nil => exact absurd rfl hne
    | cons a l => rfl
  simp [download_metadata_files, hempty, hbuild]

/-- Monad-law rewrites for the Except monad, by definitional unfolding. -/
theorem exc_ok_bind {α β : Type} (a : α) (f : α → Except PyError β) :
    (Except.ok a >>= f) = f a := rfl

theorem exc_pure_bind {α β : Type} (a : α) (f : α → Except PyError β) :
    ((pure a : Except PyError α) >>= f) = f a := rfl

theorem exc_pure_eq {α : Type} (a : α) :
    (Except.pure a : Except PyError α) = Except.ok a := rfl

theorem exc_error_bind {α β : Type} (e : PyError) (f : α → Except PyError β) :
    ((Except.error e : Except PyError α) >>= f) = Except.error e := rfl

theorem parse_step_revision (st : ParseResult) (t : Option String) :
    parse_repomd_step st (RepomdItem.revisionElem t) =
      Except.ok { st with revision := t } := rfl

theorem parse_step_other (st : ParseResult) :
    parse_repomd_step st RepomdItem.otherElem = Except.ok st := rfl

theorem parse_step_data (st : ParseResult) (d : DataElement) :
    parse_repomd_step st (RepomdItem.dataElem d) =
      process_repomd_data_element d >>= fun fi =>
        Except.ok { st with metadata := dictInsert st.metadata fi.name fi } := rfl

/-- The foldlM loop of parse_repomd succeeds from any accumulated state
exactly when every data element processes without error. -/
theorem parse_loop_ok :
    ∀ (items : List RepomdItem) (st : ParseResult),
      (items.foldlM parse_repomd_step st).isOk = true ↔
        ∀ d : DataElement, RepomdItem.dataElem d ∈ items →
          (process_repomd_data_element d).isOk = true := by
  intro items
  induction items with
  | nil =>
    intro st
    simp [List.foldlM_nil, pure, Except.pure, Except.isOk, Except.toBool]
  | cons item rest ih =>
    intro st
    cases item with
    | revisionElem t =>
      rw [List.foldlM_cons, parse_step_revision, exc_ok_bind, ih]
      constructor
      · intro hall d hd
        rcases List.mem_cons.mp hd with hd | hd
        · exact absurd hd (by simp)
        · exact hall d hd
      · intro hall d hd
        exact hall d (List.mem_cons.mpr (Or.inr hd))
    | otherElem =>
      rw [List.foldlM_cons, parse_step_other, exc_ok_bind, ih]
      constructor
      · intro hall d hd
        rcases List.mem_cons.mp hd with hd | hd
        · exact absurd hd (by simp)
        · exact hall d hd
      · intro hall d hd
        exact hall d (List.mem_cons.mpr (Or.inr hd))
    | dataElem d₀ =>
      cases hproc : process_repomd_data_element d₀ with
      | error e =>
        rw [List.foldlM_cons, parse_step_data, hproc, exc_error_bind, exc_error_bind]
        constructor
        · intro h
          exact absurd h (by simp [Except.isOk, Except.toBool])
        · intro hall
          exfalso
          have hd₀ := hall d₀ (List.mem_cons_self _ _)
          rw [hproc] at hd₀
          simp [Except.isOk, Except.toBool] at hd₀
      | ok fi =>
        rw [List.foldlM_cons, parse_step_data, hproc, exc_ok_bind, exc_ok_bind, ih]
        constructor
        · intro hall d hd
          rcases List.mem_cons.mp hd with hd | hd
          · obtain rfl : d = d₀ := by injection hd
            rw [hproc]
            rfl
          · exact hall d hd
        · intro hall d hd
          exact hall d (List.mem_cons.mpr (Or.inr hd))

/-- Success of an Except value is the existence of an ok result. -/
theorem exc_isOk_iff {α : Type} (x : Except PyError α) :
    x.isOk = true ↔ ∃ a, x = Except.ok a := by
  cases x <;> simp [Except.isOk, Except.toBool]

theorem exc_isOk_ok {α : Type} (a : α) :
    (Except.ok a : Except PyError α).isOk = true := rfl

theorem exc_isOk_error {α : Type} (e : PyError) :
    (Except.error e : Except PyError α).isOk = false := rfl

/-- Success of a bind decomposes into success of both stages. -/
theorem exc_isOk_bind {α β : Type} (x : Except PyError α) (f : α → Except PyError β) :
    (x >>= f).isOk = true ↔ ∃ a, x = Except.ok a ∧ (f a).isOk = true := by
  cases x <;> simp [exc_ok_bind, exc_error_bind, Except.isOk, Except.toBool]

/-- readIntChild succeeds exactly when a present child's text parses with
int(). -/
theorem readIntChild_ok_exists (e? : Option TextElem) :
    (∃ v, readIntChild e? = Except.ok v) ↔
      ∀ e, e? = some e → (pyInt e.text).isOk = true := by
  cases e? with
  | none => simp [readIntChild, pure, Except.pure]
  | some e =>
    cases h : pyInt e.text with
    | error err =>
      simp [readIntChild, h, exc_error_bind, Except.isOk, Except.toBool]
    | ok n =>
      simp [readIntChild, h, exc_ok_bind, pure, Except.pure, Except.isOk, Except.toBool]

/-- readFloatChild succeeds exactly when a present child's text parses with
float(). -/
theorem readFloatChild_ok_exists (e? : Option TextElem) :
    (∃ v, readFloatChild e? = Except.ok v) ↔
      ∀ e, e? = some e → (pyFloat e.text).isOk = true := by
  cases e? with
  | none => simp [readFloatChild, pure, Except.pure]
  | some e =>
    cases h : pyFloat e.text with
    | error err =>
      simp [readFloatChild, h, exc_error_bind, Except.isOk, Except.toBool]
    | ok v =>
      simp [readFloatChild, h, exc_ok_bind, pure, Except.pure, Except.isOk, Except.toBool]

/-- A numeric-read prefix followed by an error is never ok. -/
theorem numeric_prefix_err_isOk {α : Type} (sz ts : Option TextElem) (e : PyError) :
    ((readIntChild sz >>= fun _ => readFloatChild ts >>= fun _ =>
      (Except.error e : Except PyError α)).isOk) = false := by
  cases h1 : readIntChild sz with
  | error e1 => rw [exc_error_bind]; rfl
  | ok a =>
    rw [exc_ok_bind]
    cases h2 : readFloatChild ts with
    | error e2 => rw [exc_error_bind]; rfl
    | ok b => rw [exc_ok_bind]; rfl

/-- A numeric-read prefix followed by an error never yields an ok result. -/
theorem numeric_prefix_err {α : Type} (sz ts : Option TextElem) (e : PyError) (x : α)
    (h : (readIntChild sz >>= fun _ => readFloatChild ts >>= fun _ =>
      (Except.error e : Except PyError α)) = Except.ok x) : False := by
  cases h1 : readIntChild sz with
  | error e1 =>
    rw [h1] at h
    simp only [exc_error_bind] at h
    exact Except.noConfusion h
  | ok a =>
    rw [h1] at h
    simp only [exc_ok_bind] at h
    cases h2 : readFloatChild ts with
    | error e2 =>
      rw [h2] at h
      simp only [exc_error_bind] at h
      exact Except.noConfusion h
    | ok b =>
      rw [h2] at h
      simp only [exc_ok_bind] at h
      exact Except.noConfusion h

/-- An ok result of the numeric-read tail is the continuation applied to some
parsed values. -/
theorem numeric_tail_eq {γ : Type} (sz ts osz : Option TextElem)
    (g : Option Int → Option PyFloat → Option Int → γ) (fi : γ)
    (h : (readIntChild sz >>= fun size => readFloatChild ts >>= fun timestamp =>
      readIntChild osz >>= fun open_size =>
      (Except.ok (g size timestamp open_size) : Except PyError γ)) = Except.ok fi) :
    ∃ a b c, fi = g a b c := by
  cases h1 : readIntChild sz with
  | error e1 =>
    rw [h1] at h
    simp only [exc_error_bind] at h
    exact Except.noConfusion h
  | ok a =>
    rw [h1] at h
    simp only [exc_ok_bind] at h
    cases h2 : readFloatChild ts with
    | error e2 =>
      rw [h2] at h
      simp only [exc_error_bind] at h
      exact Except.noConfusion h
    | ok b =>
      rw [h2] at h
      simp only [exc_ok_bind] at h
      cases h3 : readIntChild osz with
      | error e3 =>
        rw [h3] at h
        simp only [exc_error_bind] at h
        exact Except.noConfusion h
      | ok c =>
        rw [h3] at h
        simp only [exc_ok_bind] at h
        exact ⟨a, b, c, (Except.ok.inj h).symm⟩

/-- Success of process_repomd_data_element is exactly: the type attribute is
present, each present location/checksum/open-checksum child carries its
required attribute, each present size/open-size child's text parses with
int(), and a present timestamp child's text parses with float(). -/
theorem process_ok_iff (d : DataElement) :
    (process_repomd_data_element d).isOk = true ↔
      (d.typeAttr.isSome = true
        ∧ (∀ l, d.location = some l → l.href.isSome = true)
        ∧ (∀ c, d.checksum = some c → c.ctype.isSome = true)
        ∧ (∀ e, d.size = some e → (pyInt e.text).isOk = true)
        ∧ (∀ e, d.timestamp = some e → (pyFloat e.text).isOk = true)
        ∧ (∀ c, d.openChecksum = some c → c.ctype.isSome = true)
        ∧ (∀ e, d.openSize = some e → (pyInt e.text).isOk = true)) := by
  obtain ⟨t, loc, cs, sz, ts, ocs, osz⟩ := d
  rcases t with _ | t <;>
    rcases loc with _ | ⟨_ | hr⟩ <;>
    rcases cs with _ | ⟨_ | ct, cx⟩ <;>
    rcases ocs with _ | ⟨_ | oct, ocx⟩ <;>
    simp [process_repomd_data_element, exc_ok_bind, exc_error_bind, exc_isOk_bind,
      exc_isOk_ok, exc_isOk_error, numeric_prefix_err_isOk, readIntChild_ok_exists,
      readFloatChild_ok_exists, pure, Except.pure]

/-- C2, counterexample: a well-formed document with one data entry that
carries a kind attribute but no location element parses successfully — the
parse does not fail; it yields an entry with an absent relative path,
contradicting the claim that a data entry without a location element makes
the parse fail. -/
theorem c2_counterexample :
    parse_repomd (RepomdDocument.wellFormed
        [RepomdItem.dataElem ⟨some "primary", none, none, none, none, none, none⟩])
      = Except.ok
          { revision := none
            metadata := [("primary",
              { name := "primary", relative_path := none,
                checksum := { algorithm := none, hex_digest := none },
                size := none, timestamp := none,
                open_checksum := { algorithm := none, hex_digest := none },
                open_size := none, local_path := none })] } := by
  rfl

/-- C2, amended: the descriptor parse fails exactly when the document is not
well-formed, or when some data entry lacks a kind (type) attribute, or when
some present location/checksum/open-checksum child lacks its required
attribute (href resp. type), or when a present size/open-size child's text is
not a valid int() literal or a present timestamp child's text is not a valid
float() literal.  A data entry without a location element does NOT make the
parse fail: it yields an entry with an absent relative path. -/
theorem c2_amended :
    parse_repomd RepomdDocument.malformed
        = Except.error (PyError.valueError "could not parse repo metadata")
    ∧ (∀ items : List RepomdItem,
        (parse_repomd (RepomdDocument.wellFormed items)).isOk = true ↔
          ∀ d : DataElement, RepomdItem.dataElem d ∈ items →
            (process_repomd_data_element d).isOk = true)
    ∧ (∀ d : DataElement,
        (process_repomd_data_element d).isOk = true ↔
          (d.typeAttr.isSome = true
            ∧ (∀ l, d.location = some l → l.href.isSome = true)
            ∧ (∀ c, d.checksum = some c → c.ctype.isSome = true)
            ∧ (∀ e, d.size = some e → (pyInt e.text).isOk = true)
            ∧ (∀ e, d.timestamp = some e → (pyFloat e.text).isOk = true)
            ∧ (∀ c, d.openChecksum = some c → c.ctype.isSome = true)
            ∧ (∀ e, d.openSize = some e → (pyInt e.text).isOk = true)))
    ∧ (∀ (d : DataElement) (fi : FileInfo),
        process_repomd_data_element d = Except.ok fi → d.location = none →
          fi.relative_path = none) := by
  refine ⟨rfl, fun items => parse_loop_ok items _, process_ok_iff, ?_⟩
  intro d fi h hl
  obtain ⟨t, loc, cs, sz, ts, ocs, osz⟩ := d
  simp only at hl
  subst hl
  rcases t with _ | t <;>
    rcases cs with _ | ⟨_ | ct, cx⟩ <;>
    rcases ocs with _ | ⟨_ | oct, ocx⟩ <;>
    simp only [process_repomd_data_element, exc_ok_bind, exc_error_bind, pure,
      Except.pure] at h <;>
    first
      | exact Except.noConfusion h
      | exact (numeric_prefix_err _ _ _ _ h).elim
      | (obtain ⟨a, b, c, hfi⟩ := numeric_tail_eq _ _ _ _ _ h; subst hfi; rfl)

/-- C2, witness for the amended theorem: applied to the concrete data element
with a kind attribute and no location element, the parse succeeds and the
resulting entry has an absent relative path. -/
theorem c2_witness :
    ({ name := "primary", relative_path := none,
       checksum := { algorithm := none, hex_digest := none },
       size := none, timestamp := none,
       open_checksum := { algorithm := none, hex_digest := none },
       open_size := none, local_path := none } : FileInfo).relative_path = none :=
  c2_amended.2.2.2 ⟨some "primary", none, none, none, none, none, none⟩ _ rfl rfl

/-- C3, counterexample: with declared size 10 (KB) and a matching sha256
digest, verification succeeds on a 10240-byte file and ALSO succeeds on a
10241-byte file (10241 / 1024 = 10 under floor division), contradicting the
claim that 10241 bytes fails with a size mismatch. -/
theorem c3_counterexample :
    verify_metadata_file
        { name := "primary", relative_path := some "repodata/primary.xml",
          checksum := { algorithm := some "sha256", hex_digest := some "d1" },
          size := some 10, timestamp := none,
          open_checksum := { algorithm := none, hex_digest := none },
          open_size := none, local_path := some "dst/primary.xml" }
        (fun _ => { byteSize := 10241, hexdigest := fun _ => "d1" })
      = Except.ok ()
    ∧ verify_metadata_file
        { name := "primary", relative_path := some "repodata/primary.xml",
          checksum := { algorithm := some "sha256", hex_digest := some "d1" },
          size := some 10, timestamp := none,
          open_checksum := { algorithm := none, hex_digest := none },
          open_size := none, local_path := some "dst/primary.xml" }
        (fun _ => { byteSize := 10240, hexdigest := fun _ => "d1" })
      = Except.ok () := by
  exact ⟨rfl, rfl⟩

/-- C3, amended: for a downloaded descriptor with a declared size, the size
check raises the size-mismatch error exactly when floor(actual_bytes / 1024)
differs from the declared kilobyte value; hence declared size 10 accepts both
10240 and 10241 actual bytes and rejects e.g. 11264. -/
theorem c3_amended (md : FileInfo) (fs : String → LocalFile) (p : String)
    (s : Int) (hp : md.local_path = some p) (hs : md.size = some s) :
    verify_metadata_file md fs
        = Except.error (PyError.runtimeError "failed verification, file size mismatch")
      ↔ ((fs p).byteSize : Int) / 1024 ≠ s := by
  unfold verify_metadata_file
  rw [hp, hs]
  simp only [bind, Except.bind, pure]
  simp only [exc_pure_eq]
  by_cases hsz : ((fs p).byteSize : Int) / 1024 ≠ s
  · simp [hsz]
  · rw [if_neg hsz]
    refine iff_of_false ?_ hsz
    intro hbad
    cases halg : md.checksum.algorithm with
    | none =>
      simp only [halg] at hbad
      simp at hbad
    | some a =>
      simp only [halg] at hbad
      cases hget : hashlib_getattr a with
      | none =>
        simp only [hget] at hbad
        simp at hbad
      | some hc =>
        simp only [hget] at hbad
        by_cases hdg : some ((fs p).hexdigest hc) ≠ md.checksum.hex_digest
        · rw [if_pos hdg] at hbad
          simp at hbad
        · rw [if_neg hdg] at hbad
          simp at hbad

/-- C3, witness for the amended theorem: declared size 10 with an actual file
of 11264 bytes (floor 11 ≠ 10) raises the size-mismatch error. -/
theorem c3_witness :
    verify_metadata_file
        { name := "other", relative_path := some "repodata/other.xml",
          checksum := { algorithm := some "sha256", hex_digest := some "d2" },
          size := some 10, timestamp := none,
          open_checksum := { algorithm := none, hex_digest := none },
          open_size := none, local_path := some "dst/other.xml" }
        (fun _ => { byteSize := 11264, hexdigest := fun _ => "d2" })
      = Except.error (PyError.runtimeError "failed verification, file size mismatch") :=
  (c3_amended _ _ "dst/other.xml" 10 rfl rfl).mpr (by decide)

/-- C6, counterexample: the algorithm name sha224 is outside the claim's
closed set {md5, sha1, sha256, sha384, sha512}, yet verification of a
descriptor declaring sha224 does not fail with an unsupported-algorithm
error — it resolves sha224 through the hashlib attribute lookup and succeeds
on a matching digest. -/
theorem c6_counterexample :
    verify_metadata_file
        { name := "primary", relative_path := some "repodata/primary.xml.gz",
          checksum := { algorithm := some "sha224", hex_digest := some "abc" },
          size := some 0, timestamp := none,
          open_checksum := { algorithm := none, hex_digest := none },
          open_size := none, local_path := some "dst/primary.xml.gz" }
        (fun _ => { byteSize := 100, hexdigest := fun _ => "abc" })
      = Except.ok ()
    ∧ hashlib_getattr "sha224" = some HashAlgo.sha224
    ∧ "sha224" ∉ (["md5", "sha1", "sha256", "sha384", "sha512"] : List String) := by
  exact ⟨rfl, rfl, by decide⟩

/-- C6, amended: the algorithm is resolved by dynamic attribute lookup on the
hashlib module, whose digest constructors are {md5, sha1, sha224, sha256,
sha384, sha512}; a descriptor declaring a name with no such attribute fails
with the unsupported-algorithm error, and a declared name inside that set
(including sha224) uses the corresponding native digest implementation. -/
theorem c6_amended :
    (∀ (md : FileInfo) (fs : String → LocalFile) (p : String) (s : Int) (a : String),
        md.local_path = some p → md.size = some s →
        ((fs p).byteSize : Int) / 1024 = s →
        md.checksum.algorithm = some a →
        (verify_metadata_file md fs
            = Except.error (PyError.runtimeError "failed verification, unsupported hash algorithm")
          ↔ hashlib_getattr a = none))
    ∧ (∀ a : String, (hashlib_getattr a).isSome = true ↔
        a ∈ ["md5", "sha1", "sha224", "sha256", "sha384", "sha512"]) := by
  constructor
  · intro md fs p s a hp hs hsz halg
    unfold verify_metadata_file
    rw [hp, hs]
    simp only [bind, Except.bind, pure]
    simp only [exc_pure_eq]
    rw [if_neg (fun h => h hsz)]
    simp only [halg]
    cases hget : hashlib_getattr a with
    | none => simp [hget]
    | some hc =>
      simp only [hget]
      by_cases hdg : some ((fs p).hexdigest hc) ≠ md.checksum.hex_digest
      · rw [if_pos hdg]
        exact iff_of_false (by simp) (by simp)
      · rw [if_neg hdg]
        exact iff_of_false (by simp) (by simp)
  · intro a
    unfold hashlib_getattr
    split_ifs with h1 h2 h3 h4 h5 h6 <;> simp_all

/-- C6, witness for the amended theorem: the name whirlpool has no hashlib
attribute, so verification of a descriptor declaring it fails with the
unsupported-algorithm error. -/
theorem c6_witness :
    verify_metadata_file
        { name := "updateinfo", relative_path := some "repodata/updateinfo.xml",
          checksum := { algorithm := some "whirlpool", hex_digest := some "zz" },
          size := some 0, timestamp := none,
          open_checksum := { algorithm := none, hex_digest := none },
          open_size := none, local_path := some "dst/updateinfo.xml" }
        (fun _ => { byteSize := 5, hexdigest := fun _ => "zz" })
      = Except.error (PyError.runtimeError "failed verification, unsupported hash algorithm") :=
  (c6_amended.1 _ _ "dst/updateinfo.xml" 0 "whirlpool" rfl rfl (by decide) rfl).mpr rfl

/-- C4, counterexample: a batch in which the only fetch fails (the listener
reports a failure for it) still leaves the entry's local_path set — local_path
is assigned at request-build time, before the download, not after a
successful acquisition. -/
theorem c4_counterexample :
    download_metadata_files "http://repo/" "dst"
        [{ name := "primary", relative_path := some "repodata/primary.xml",
           checksum := { algorithm := none, hex_digest := none },
           size := none, timestamp := none,
           open_checksum := { algorithm := none, hex_digest := none },
           open_size := none, local_path := none }]
        { success := fun _ => false, errorReport := fun _ => "network unreachable" }
      = Except.ok
          ([{ name := "primary", relative_path := some "repodata/primary.xml",
              checksum := { algorithm := none, hex_digest := none },
              size := none, timestamp := none,
              open_checksum := { algorithm := none, hex_digest := none },
              open_size := none, local_path := some "dst/primary.xml" }],
           [{ url := "http://repo/repodata/primary.xml",
              destination := "dst/primary.xml" }],
           ["network unreachable"]) := by
  rfl

/-- C4, amended: download_metadata_files sets local_path on every entry whose
relative path lacks the sqlite substring at the moment its request is built,
before the batch download and regardless of the fetch outcome; sidecar
(sqlite) entries are left untouched.  The resulting metadata is a function of
the input metadata alone — the fetch outcome influences only the listener's
failure reports. -/
theorem c4_amended (repo_url dst_dir : String) (metadata : List FileInfo)
    (outcome : FetchOutcome)
    (h : ∀ md ∈ metadata, md.relative_path ≠ none) (hne : metadata ≠ []) :
    download_metadata_files repo_url dst_dir metadata outcome
        = Except.ok (metadata.map (mdWithLocal dst_dir),
            (metadata.filter (fun md => !sqliteSkip md)).map (mdRequest repo_url dst_dir),
            failed_reports outcome
              ((metadata.filter (fun md => !sqliteSkip md)).map (mdRequest repo_url dst_dir)))
    ∧ (∀ md : FileInfo, sqliteSkip md = false →
        (mdWithLocal dst_dir md).local_path
          = some (pathJoin dst_dir (rsplitLast (md.relative_path.getD ""))))
    ∧ (∀ md : FileInfo, sqliteSkip md = true → mdWithLocal dst_dir md = md) := by
  refine ⟨download_metadata_files_eq repo_url dst_dir metadata outcome h hne, ?_, ?_⟩
  · intro md hskip
    simp [mdWithLocal, hskip]
  · intro md hskip
    simp [mdWithLocal, hskip]

/-- C4, witness for the amended theorem: a concrete one-entry batch whose
fetch fails, on which the amended characterization evaluates as stated. -/
theorem c4_witness :
    download_metadata_files "http://repo/" "d"
        [{ name := "other", relative_path := some "repodata/other.xml.gz",
           checksum := { algorithm := none, hex_digest := none },
           size := none, timestamp := none,
           open_checksum := { algorithm := none, hex_digest := none },
           open_size := none, local_path := none }]
        { success := fun _ => false, errorReport := fun _ => "boom" }
      = Except.ok
          ([{ name := "other", relative_path := some "repodata/other.xml.gz",
              checksum := { algorithm := none, hex_digest := none },
              size := none, timestamp := none,
              open_checksum := { algorithm := none, hex_digest := none },
              open_size := none, local_path := some "d/other.xml.gz" }],
           [{ url := "http://repo/repodata/other.xml.gz",
              destination := "d/other.xml.gz" }],
           ["boom"]) :=
  (c4_amended "http://repo/" "d" _ _ (by decide) (by decide)).1

/-- C5, counterexample: a batch whose only request fails (listener holds a
failure report) still makes download_metadata_files return normally — no
AcquisitionError is raised by that method on batch failure. -/
theorem c5_counterexample :
    download_metadata_files "u/" "d"
        [{ name := "filelists", relative_path := some "repodata/filelists.xml.gz",
           checksum := { algorithm := none, hex_digest := none },
           size := none, timestamp := none,
           open_checksum := { algorithm := none, hex_digest := none },
           open_size := none, local_path := none }]
        { success := fun _ => false, errorReport := fun _ => "timeout" }
      = Except.ok
          ([{ name := "filelists", relative_path := some "repodata/filelists.xml.gz",
              checksum := { algorithm := none, hex_digest := none },
              size := none, timestamp := none,
              open_checksum := { algorithm := none, hex_digest := none },
              open_size := none, local_path := some "d/filelists.xml.gz" }],
           [{ url := "u/repodata/filelists.xml.gz",
              destination := "d/filelists.xml.gz" }],
           ["timeout"]) := by
  rfl

/-- C5, amended: download_metadata_files hands the whole batch to the
downloader in one call and returns normally whatever the per-request
outcomes are — it never inspects the listener's failed reports.  Only
download_repomd (the descriptor fetch) checks the reports: it succeeds
exactly when its single request succeeded, and otherwise raises IOError
carrying the first reported failure. -/
theorem c5_amended :
    (∀ (repo_url dst_dir : String) (metadata : List FileInfo) (outcome : FetchOutcome),
        (∀ md ∈ metadata, md.relative_path ≠ none) → metadata ≠ [] →
        (download_metadata_files repo_url dst_dir metadata outcome).isOk = true)
    ∧ (∀ (repo_url dst_dir : String) (outcome : FetchOutcome),
        download_repomd repo_url dst_dir outcome = Except.ok ()
          ↔ outcome.success (repomdRequest repo_url dst_dir) = true)
    ∧ (∀ (repo_url dst_dir : String) (outcome : FetchOutcome),
        outcome.success (repomdRequest repo_url dst_dir) = false →
        download_repomd repo_url dst_dir outcome
          = Except.error (PyError.ioError (outcome.errorReport (repomdRequest repo_url dst_dir)))) := by
  refine ⟨?_, ?_, ?_⟩
  · intro repo_url dst_dir metadata outcome h hne
    rw [download_metadata_files_eq repo_url dst_dir metadata outcome h hne]
    rfl
  · intro repo_url dst_dir outcome
    unfold download_repomd failed_reports
    cases hsucc : outcome.success (repomdRequest repo_url dst_dir) with
    | false => simp [List.filter, hsucc]
    | true => simp [List.filter, hsucc, pure, Except.pure]
  · intro repo_url dst_dir outcome hfail
    unfold download_repomd failed_reports
    simp [List.filter, hfail]

/-- C5, witness for the amended theorem: with a fetcher that fails every
request, download_metadata_files still returns normally on a concrete batch,
while download_repomd raises IOError with the failure's report. -/
theorem c5_witness :
    (download_metadata_files "u/" "d"
        [{ name := "group", relative_path := some "repodata/comps.xml",
           checksum := { algorithm := none, hex_digest := none },
           size := none, timestamp := none,
           open_checksum := { algorithm := none, hex_digest := none },
           open_size := none, local_path := none }]
        { success := fun _ => false, errorReport := fun _ => "refused" }).isOk = true
    ∧ download_repomd "u/" "d"
        { success := fun _ => false, errorReport := fun _ => "refused" }
      = Except.error (PyError.ioError "refused") :=
  ⟨c5_amended.1 "u/" "d" _ _ (by decide) (by decide),
   c5_amended.2.2 "u/" "d" _ rfl⟩

/-- C9, counterexample: a successfully parsed descriptor may contain an entry
with an absent relative path (location element missing); on such a descriptor
the acquisition step raises AttributeError and builds no request at all,
rather than one request per non-sidecar entry. -/
theorem c9_counterexample :
    (parse_repomd (RepomdDocument.wellFormed
        [RepomdItem.dataElem ⟨some "primary", none, none, none, none, none, none⟩])).isOk
      = true
    ∧ download_metadata_files "u/" "d"
        [{ name := "primary", relative_path := none,
           checksum := { algorithm := none, hex_digest := none },
           size := none, timestamp := none,
           open_checksum := { algorithm := none, hex_digest := none },
           open_size := none, local_path := none }]
        { success := fun _ => true, errorReport := fun _ => "" }
      = Except.error (PyError.attributeError "find") := by
  exact ⟨rfl, rfl⟩

/-- C9, amended: provided every entry of the parsed descriptor carries a
relative path, the acquisition step builds exactly one fetch request per
entry except those whose relative path contains the sqlite sidecar substring,
which are excluded from the batch; an entry with an absent relative path
instead raises AttributeError. -/
theorem c9_amended (repo_url dst_dir : String) (metadata : List FileInfo)
    (outcome : FetchOutcome)
    (h : ∀ md ∈ metadata, md.relative_path ≠ none) (hne : metadata ≠ []) :
    download_metadata_files repo_url dst_dir metadata outcome
        = Except.ok (metadata.map (mdWithLocal dst_dir),
            (metadata.filter (fun md => !sqliteSkip md)).map (mdRequest repo_url dst_dir),
            failed_reports outcome
              ((metadata.filter (fun md => !sqliteSkip md)).map (mdRequest repo_url dst_dir)))
    ∧ ((metadata.filter (fun md => !sqliteSkip md)).map (mdRequest repo_url dst_dir)).length
        = (metadata.filter (fun md => !sqliteSkip md)).length
    ∧ (∀ md : FileInfo,
        sqliteSkip md = true ↔ pyFind (md.relative_path.getD "") "sqlite" ≥ 0) := by
  refine ⟨download_metadata_files_eq repo_url dst_dir metadata outcome h hne,
    List.length_map _ _, ?_⟩
  intro md
  simp [sqliteSkip]

/-- C9, witness for the amended theorem: a two-entry descriptor with one
sqlite sidecar entry and one xml entry yields a batch with exactly one
request, for the xml entry. -/
theorem c9_witness :
    download_metadata_files "u/" "d"
        [{ name := "primary_db", relative_path := some "repodata/primary.sqlite.bz2",
           checksum := { algorithm := none, hex_digest := none },
           size := none, timestamp := none,
           open_checksum := { algorithm := none, hex_digest := none },
           open_size := none, local_path := none },
         { name := "primary", relative_path := some "repodata/primary.xml.gz",
           checksum := { algorithm := none, hex_digest := none },
           size := none, timestamp := none,
           open_checksum := { algorithm := none, hex_digest := none },
           open_size := none, local_path := none }]
        { success := fun _ => true, errorReport := fun _ => "" }
      = Except.ok
          ([{ name := "primary_db", relative_path := some "repodata/primary.sqlite.bz2",
              checksum := { algorithm := none, hex_digest := none },
              size := none, timestamp := none,
              open_checksum := { algorithm := none, hex_digest := none },
              open_size := none, local_path := none },
            { name := "primary", relative_path := some "repodata/primary.xml.gz",
              checksum := { algorithm := none, hex_digest := none },
              size := none, timestamp := none,
              open_checksum := { algorithm := none, hex_digest := none },
              open_size := none, local_path := some "d/primary.xml.gz" }],
           [{ url := "u/repodata/primary.xml.gz",
              destination := "d/primary.xml.gz" }],
           []) :=
  (c9_amended "u/" "d" _ _ (by decide) (by decide)).1

/-- C7: generate_db_key is invariant under the order in which unit-key fields
are supplied and under the declared checksum/checksumtype values: any two
unit keys whose non-checksum fields form the same set (a permutation, with
the field names pairwise distinct as in a dict) yield the same canonical
string — checksum fields are excluded, the remaining field names sorted, and
name:value pairs joined with the fixed :: delimiter. -/
theorem c7_theorem (uk₁ uk₂ : List (String × String))
    (hperm : (uk₁.filter (fun q => ¬(q.1 = "checksum" ∨ q.1 = "checksumtype"))).Perm
      (uk₂.filter (fun q => ¬(q.1 = "checksum" ∨ q.1 = "checksumtype"))))
    (hnd : ((uk₁.filter (fun q => ¬(q.1 = "checksum" ∨ q.1 = "checksumtype"))).map
      Prod.fst).Nodup) :
    generate_db_key uk₁ = generate_db_key uk₂ := by
  have hnames : ((uk₁.filter (fun q => ¬(q.1 = "checksum" ∨ q.1 = "checksumtype"))).map
      Prod.fst).Perm
      ((uk₂.filter (fun q => ¬(q.1 = "checksum" ∨ q.1 = "checksumtype"))).map Prod.fst) :=
    hperm.map Prod.fst
  have hsorted :
      List.insertionSort strLeP
          ((uk₁.filter (fun q => ¬(q.1 = "checksum" ∨ q.1 = "checksumtype"))).map Prod.fst)
        = List.insertionSort strLeP
          ((uk₂.filter (fun q => ¬(q.1 = "checksum" ∨ q.1 = "checksumtype"))).map Prod.fst) := by
    refine List.eq_of_perm_of_sorted ?_ (List.sorted_insertionSort strLeP _)
      (List.sorted_insertionSort strLeP _)
    exact ((List.perm_insertionSort strLeP _).trans hnames).trans
      (List.perm_insertionSort strLeP _).symm
  have hlookup := lookup_perm hperm hnd
  have hfun :
      (fun n => n ++ ":" ++
        ((uk₁.filter (fun q => ¬(q.1 = "checksum" ∨ q.1 = "checksumtype"))).lookup n).getD "")
      = (fun n => n ++ ":" ++
        ((uk₂.filter (fun q => ¬(q.1 = "checksum" ∨ q.1 = "checksumtype"))).lookup n).getD "") :=
    funext fun n => by rw [hlookup n]
  simp only [generate_db_key]
  rw [hsorted, hfun]

/-- C7, witness: the spec's own example pair — same identity fields supplied
in a different order with different checksum and checksumtype values — gets
one and the same normalized key. -/
theorem c7_witness :
    generate_db_key [("name", "a"), ("version", "1"), ("release", "1"),
        ("arch", "x86_64"), ("checksum", "deadbeef"), ("checksumtype", "sha256")]
      = generate_db_key [("arch", "x86_64"), ("name", "a"), ("checksumtype", "sha1"),
        ("checksum", "cafebabe"), ("release", "1"), ("version", "1")] :=
  c7_theorem _ _ (by decide) (by decide)

/-- C8, counterexample: two records with the same normalized key but
different raw fragments defeat order-independence — the two orders of the
same multiset of records produce stores with different contents at that key
(last write wins), refuting the claim as universally stated. -/
theorem c8_counterexample :
    ([⟨[("name", "a")], "frag1"⟩, ⟨[("name", "a")], "frag2"⟩] : List PackageRecord).Perm
        [⟨[("name", "a")], "frag2"⟩, ⟨[("name", "a")], "frag1"⟩]
    ∧ generate_db [⟨[("name", "a")], "frag1"⟩, ⟨[("name", "a")], "frag2"⟩] "name:a"
        = some "frag2"
    ∧ generate_db [⟨[("name", "a")], "frag2"⟩, ⟨[("name", "a")], "frag1"⟩] "name:a"
        = some "frag1" := by
  exact ⟨by decide, rfl, rfl⟩

/-- C8, amended: provided no two records of the detail file share a
normalized key, index building is order-independent — the same multiset of
records in any physical order yields a store with identical key-to-value
contents — and each build starts from a freshly truncated store: a key not
generated by any record is absent, whatever a previous build held. -/
theorem c8_amended (l₁ l₂ : List PackageRecord) (hp : l₁.Perm l₂)
    (hnd : (l₁.map (fun r => generate_db_key r.unit_key)).Nodup) :
    (∀ k, generate_db l₁ k = generate_db l₂ k)
    ∧ (∀ k, (∀ r ∈ l₁, generate_db_key r.unit_key ≠ k) → generate_db l₁ k = none) := by
  constructor
  · intro k
    unfold generate_db
    refine congrFun (hp.foldl_eq' ?_ _) k
    intro x hx y hy z
    by_cases hxy : x = y
    · subst hxy; rfl
    · have hkey : generate_db_key x.unit_key ≠ generate_db_key y.unit_key :=
        fun he => hxy (List.inj_on_of_nodup_map hnd hx hy he)
      funext k'
      unfold dbStep
      by_cases h1 : k' = generate_db_key y.unit_key <;>
        by_cases h2 : k' = generate_db_key x.unit_key
      · exact absurd (h2.symm.trans h1) hkey
      · simp [h1, h2, Ne.symm hkey]
      · simp [h1, h2, hkey]
      · simp [h1, h2]
  · intro k hk
    unfold generate_db
    have haux : ∀ (l : List PackageRecord) (g : String → Option String),
        (∀ r ∈ l, generate_db_key r.unit_key ≠ k) → g k = none →
        (l.foldl dbStep g) k = none := by
      intro l
      induction l with
      | nil => intro g _ hg; exact hg
      | cons r t ih =>
        intro g hl hg
        rw [List.foldl_cons]
        refine ih _ (fun q hq => hl q (List.mem_cons_of_mem r hq)) ?_
        unfold dbStep
        rw [if_neg ?_, hg]
        intro hkk
        exact hl r (List.mem_cons_self r t) hkk.symm
    exact haux l₁ _ hk rfl

/-- C8, witness for the amended theorem: two records with distinct normalized
keys produce the same store contents in either order, and a key no record
generates is absent from the fresh store. -/
theorem c8_witness :
    generate_db [⟨[("name", "a")], "fa"⟩, ⟨[("name", "b")], "fb"⟩] "name:b"
        = generate_db [⟨[("name", "b")], "fb"⟩, ⟨[("name", "a")], "fa"⟩] "name:b"
    ∧ generate_db [⟨[("name", "a")], "fa"⟩, ⟨[("name", "b")], "fb"⟩] "name:zz" = none :=
  ⟨(c8_amended [⟨[("name", "a")], "fa"⟩, ⟨[("name", "b")], "fb"⟩]
      [⟨[("name", "b")], "fb"⟩, ⟨[("name", "a")], "fa"⟩]
      (by decide) (by decide)).1 "name:b",
   (c8_amended [⟨[("name", "a")], "fa"⟩, ⟨[("name", "b")], "fb"⟩]
      [⟨[("name", "b")], "fb"⟩, ⟨[("name", "a")], "fa"⟩]
      (by decide) (by decide)).2 "name:zz" (by decide)⟩

/-- C1, counterexample: with built (here empty) index stores, a lookup miss
in the filelists store makes add_repodata raise KeyError to the caller — the
fragment is not silently omitted, no miss counter exists, and the error is
surfaced, contradicting the claim that a miss is non-fatal. -/
theorem c1_counterexample :
    add_repodata (fun _ => none) (fun _ => none) (fun s => s) (fun s => s)
        [("name", "pkg"), ("checksum", "beef"), ("checksumtype", "sha256")] "<package/>"
      = Except.error (PyError.keyError "name:pkg") := by
  rfl

/-- C1, amended: add_repodata surfaces a lookup miss as a KeyError carrying
the normalized key — it succeeds exactly when both detail-kind stores contain
the key, raises on any miss, and on two hits returns the bag holding both raw
fragments, their parsed payloads and the primary fragment. -/
theorem c1_amended {α β : Type} (dbs_filelists dbs_other : String → Option String)
    (pf : String → α) (po : String → β)
    (unit_key : List (String × String)) (raw_xml : String) :
    ((add_repodata dbs_filelists dbs_other pf po unit_key raw_xml).isOk = true ↔
        (dbs_filelists (generate_db_key unit_key)).isSome = true
          ∧ (dbs_other (generate_db_key unit_key)).isSome = true)
    ∧ ((dbs_filelists (generate_db_key unit_key) = none
          ∨ dbs_other (generate_db_key unit_key) = none) →
        add_repodata dbs_filelists dbs_other pf po unit_key raw_xml
          = Except.error (PyError.keyError (generate_db_key unit_key)))
    ∧ (∀ fx ox, dbs_filelists (generate_db_key unit_key) = some fx →
        dbs_other (generate_db_key unit_key) = some ox →
        add_repodata dbs_filelists dbs_other pf po unit_key raw_xml
          = Except.ok ⟨fx, ox, raw_xml, pf fx, po ox⟩) := by
  cases hF : dbs_filelists (generate_db_key unit_key) with
  | none =>
    refine ⟨?_, fun _ => ?_, ?_⟩
    · simp [add_repodata, hF, Except.isOk, Except.toBool]
    · simp [add_repodata, hF]
    · intro fx ox hfx
      exact absurd hfx (by simp)
  | some fx₀ =>
    cases hO : dbs_other (generate_db_key unit_key) with
    | none =>
      refine ⟨?_, fun _ => ?_, ?_⟩
      · simp [add_repodata, hF, hO, Except.isOk, Except.toBool]
      · simp [add_repodata, hF, hO]
      · intro fx ox _ hox
        exact absurd hox (by simp)
    | some ox₀ =>
      refine ⟨?_, ?_, ?_⟩
      · simp [add_repodata, hF, hO, Except.isOk, Except.toBool, pure, Except.pure]
      · intro hmiss
        rcases hmiss with hmiss | hmiss
        · exact absurd hmiss (by simp)
        · exact absurd hmiss (by simp)
      · intro fx ox hfx hox
        obtain rfl : fx₀ = fx := by injection hfx
        obtain rfl : ox₀ = ox := by injection hox
        simp [add_repodata, hF, hO, pure, Except.pure]

/-- C1, witness for the amended theorem: a store pair holding only the
filelists fragment for the key makes add_repodata raise KeyError for that
key (the other-store lookup misses). -/
theorem c1_witness :
    add_repodata (fun k => if k = "name:x" then some "<fl/>" else none)
        (fun _ => none) (fun s => s) (fun s => s) [("name", "x")] "<p/>"
      = Except.error (PyError.keyError (generate_db_key [("name", "x")])) :=
  (c1_amended (fun k => if k = "name:x" then some "<fl/>" else none)
      (fun _ => none) (fun s => s) (fun s => s) [("name", "x")] "<p/>").2.1
    (Or.inr rfl)

/-- C10: get_metadata_file_handle returns None (rather than raising) for any
kind that is absent from the parsed descriptor or whose entry was never
acquired (no local_path); consequently get_group_file_handle returns None
exactly when neither the compressed (group_gz) nor the uncompressed (group)
variant yields a handle, and returns the compressed variant's handle whenever
that one is available. -/
theorem c10_theorem :
    (∀ (metadata : List (String × FileInfo)) (name : String),
        (metadata.lookup name).bind FileInfo.local_path = none →
        get_metadata_file_handle metadata name = none)
    ∧ (∀ metadata : List (String × FileInfo),
        get_group_file_handle metadata = none ↔
          (get_metadata_file_handle metadata "group_gz" = none
            ∧ get_metadata_file_handle metadata "group" = none))
    ∧ (∀ (metadata : List (String × FileInfo)) (h : FileHandle),
        get_metadata_file_handle metadata "group_gz" = some h →
        get_group_file_handle metadata = some h) := by
  refine ⟨?_, ?_, ?_⟩
  · intro metadata name hmiss
    unfold get_metadata_file_handle
    cases hlk : metadata.lookup name with
    | none => rfl
    | some fi =>
      rw [hlk] at hmiss
      cases hlp : fi.local_path with
      | none => simp [hlp]
      | some p =>
        rw [Option.some_bind, hlp] at hmiss
        exact absurd hmiss (by simp)
  · intro metadata
    unfold get_group_file_handle
    cases hgz : get_metadata_file_handle metadata "group_gz" with
    | none => simp
    | some h => simp
  · intro metadata h hgz
    unfold get_group_file_handle
    rw [hgz]

/-- C10, witness: on a descriptor listing both group variants with acquired
files, the group handle is the compressed variant's gzip handle; on an empty
descriptor every kind yields None. -/
theorem c10_witness :
    get_group_file_handle
        [("group", { name := "group", relative_path := some "repodata/comps.xml",
                     checksum := { algorithm := none, hex_digest := none },
                     size := none, timestamp := none,
                     open_checksum := { algorithm := none, hex_digest := none },
                     open_size := none, local_path := some "d/comps.xml" }),
         ("group_gz", { name := "group_gz",
                        relative_path := some "repodata/comps.xml.gz",
                        checksum := { algorithm := none, hex_digest := none },
                        size := none, timestamp := none,
                        open_checksum := { algorithm := none, hex_digest := none },
                        open_size := none, local_path := some "d/comps.xml.gz" })]
      = some (FileHandle.gz "d/comps.xml.gz")
    ∧ get_metadata_file_handle [] "primary" = none :=
  ⟨c10_theorem.2.2 _ (FileHandle.gz "d/comps.xml.gz") (by decide),
   c10_theorem.1 [] "primary" rfl⟩

end PulpRpm
